import Mathlib

/-!
Verification of the mempool-to-pool correlation engine of `watching_pools`.

The development shallowly embeds the Rust source:
* `src/utils.rs` — `calculate_next_block_base_fee`, the EIP-1559-style
  base-fee predictor.  The source works over `ethers::types::U256`, whose
  arithmetic operators panic on overflow, underflow and division by zero;
  panicking operations are modelled as `Option`-valued checked operations
  on `Nat` bounded by `2 ^ 256`.
* `src/watching.rs` — `trace_state_diff`, the state-diff analyzer, and the
  event-consuming correlator loop inside `watching_pool`.

`keccak256 (abi.encode (pool.address, 3))` is an external hash; it is kept
abstract as a function parameter `slotOf`.
-/

namespace WatchingPools

/-- Modulus of the 256-bit unsigned integers used by the source
(`ethers::types::U256`). -/
def U256_LIMIT : Nat := 2 ^ 256

/-- Checked 256-bit addition: `ethers::types::U256` addition panics
(`none`) when the mathematical sum does not fit in 256 bits. -/
def u256_add (a b : Nat) : Option Nat :=
  if a + b < U256_LIMIT then some (a + b) else none

/-- Checked 256-bit subtraction: `ethers::types::U256` subtraction panics
(`none`) on underflow. -/
def u256_sub (a b : Nat) : Option Nat :=
  if b ≤ a then some (a - b) else none

/-- Checked 256-bit multiplication: `ethers::types::U256` multiplication
panics (`none`) when the product does not fit in 256 bits. -/
def u256_mul (a b : Nat) : Option Nat :=
  if a * b < U256_LIMIT then some (a * b) else none

/-- Checked 256-bit division: `ethers::types::U256` division panics
(`none`) on a zero divisor. -/
def u256_div (a b : Nat) : Option Nat :=
  if b = 0 then none else some (a / b)

/-- The target gas computed at the top of `calculate_next_block_base_fee`
(utils.rs lines 12-17): `gas_limit / 2`, clamped up to `1` when zero. -/
def target_gas_used (gas_limit : Nat) : Nat :=
  if gas_limit / 2 = 0 then 1 else gas_limit / 2

/-- The `new_base_fee` binding of `calculate_next_block_base_fee`
(utils.rs lines 19-37): the predicted next-block base fee before the
random jitter is added.  Both branches compute
`gas_used - target_gas_used` exactly as the source does; in the
"decrease" branch this subtraction underflows (panics) whenever
`gas_used < target_gas_used`. -/
def new_base_fee (gas_used gas_limit base_fee_per_gas : Nat) : Option Nat :=
  if gas_used > target_gas_used gas_limit then do
    let d ← u256_sub gas_used (target_gas_used gas_limit)
    let m ← u256_mul base_fee_per_gas d
    let q1 ← u256_div m (target_gas_used gas_limit)
    let q2 ← u256_div q1 8
    u256_add base_fee_per_gas q2
  else do
    let d ← u256_sub gas_used (target_gas_used gas_limit)
    let m ← u256_mul base_fee_per_gas d
    let q1 ← u256_div m (target_gas_used gas_limit)
    let q2 ← u256_div q1 8
    u256_sub base_fee_per_gas q2

/-- `calculate_next_block_base_fee` (utils.rs lines 5-40).  The random
jitter `rand::thread_rng().gen_range(0..9)` is passed in as `seed`
(a value in `0..=8`). -/
def calculate_next_block_base_fee
    (gas_used gas_limit base_fee_per_gas seed : Nat) : Option Nat := do
  let f ← new_base_fee gas_used gas_limit base_fee_per_gas
  u256_add f seed

/-! ### Data model of `src/watching.rs`

Addresses (`H160`), storage slots (`H256`) and 256-bit values are all
modelled as `Nat`. -/

/-- `NewBlock` (watching.rs lines 29-36).  `#[derive(Default)]` gives the
all-zero sentinel used as the correlator's initial state. -/
structure NewBlock where
  number : Nat
  gas_used : Nat
  gas_limit : Nat
  base_fee_per_gas : Nat
  timestamp : Nat
deriving DecidableEq

/-- The `Default` instance of `NewBlock`: every field zero. -/
def NewBlock.default : NewBlock := ⟨0, 0, 0, 0, 0⟩

/-- The fields of an `ethers` pending `Transaction` that the pipeline
reads: `hash` (identifies the transaction) and the optional
`max_fee_per_gas`. -/
structure Transaction where
  hash : Nat
  max_fee_per_gas : Option Nat
deriving DecidableEq

/-- `Event` (watching.rs lines 37-41). -/
inductive Event where
  | newBlock : NewBlock → Event
  | transaction : Transaction → Event
deriving DecidableEq

/-- True exactly on `Event::Transaction`. -/
def Event.isTransactionEvent : Event → Bool
  | .newBlock _ => false
  | .transaction _ => true

/-- True on `Event::Transaction` and on `Event::NewBlock` blocks whose
number is the zero sentinel. -/
def Event.isTxOrZeroBlock : Event → Bool
  | .newBlock b => b.number == 0
  | .transaction _ => true

/-- The token fields of a `cfmms` pool (`UniswapV2Pool` /
`UniswapV3Pool`): its own address and the two constituent tokens. -/
structure PoolData where
  address : Nat
  token_a : Nat
  token_b : Nat
deriving DecidableEq

/-- `cfmms::pool::Pool`, a variant over the AMM kinds matched in
watching.rs lines 100-104. -/
inductive Pool where
  | uniswapV2 : PoolData → Pool
  | uniswapV3 : PoolData → Pool
deriving DecidableEq

/-- `pool.address()` — the pool's own contract address. -/
def Pool.address : Pool → Nat
  | .uniswapV2 d => d.address
  | .uniswapV3 d => d.address

/-- The filter of watching.rs lines 100-104:
`vec![pool.token_a, pool.token_b].contains(&target_address)` in each
variant — an order-independent check of both token slots. -/
def Pool.containsToken (p : Pool) (target_address : Nat) : Bool :=
  match p with
  | .uniswapV2 d => [d.token_a, d.token_b].contains target_address
  | .uniswapV3 d => [d.token_a, d.token_b].contains target_address

/-- `ethers::types::Diff<H256>` — one account-storage slot's change in a
simulated execution.  The `H256` payloads are modelled as `Nat`, matching
the `U256::from(_.to_fixed_bytes())` conversion at watching.rs
lines 126-127. -/
inductive Diff where
  | same : Diff
  | born : Nat → Diff
  | died : Nat → Diff
  | changed : Nat → Nat → Diff
deriving DecidableEq

/-- The `storage` component of an `ethers` `AccountDiff`: a map from slot
to `Diff`, modelled as an association list (the source's `BTreeMap`). -/
structure AccountDiff where
  storage : List (Nat × Diff)
deriving DecidableEq

/-- A state diff as returned by `trace_call(..)...state_diff`: a map from
touched account address to its `AccountDiff`, modelled as an association
list (the source's `BTreeMap`). -/
def StateDiff := List (Nat × AccountDiff)

/-- One balance-increase match logged by `trace_state_diff`
(watching.rs lines 134-140): the pool's address and the before/after
values of the pool's balance slot in the target token's storage. -/
structure BalanceChange where
  pool : Nat
  before : Nat
  after : Nat
deriving DecidableEq

/-- The `touched_pools` binding of `trace_state_diff` (watching.rs
lines 78-105): every diff-touched address is looked up in the pool map,
found pools are cloned out, and only pools containing the target token
are kept. -/
def touched_pools (sd : List (Nat × AccountDiff)) (pools : List (Nat × Pool))
    (target_address : Nat) : List Pool :=
  ((sd.map Prod.fst).filterMap (fun addr => List.lookup addr pools)).filter
    (fun p => p.containsToken target_address)

/-- `trace_state_diff` (watching.rs lines 49-145).  `slotOf pool_address`
stands for the external hash
`keccak256 (abi.encode (Address pool_address, Uint 3))` of watching.rs
lines 120-123.  `state_diff` is the simulation client's result
(`none` when `trace_call` produced no `state_diff`).  The returned list
collects the balance-increase matches the source logs; `Except.error`
models the `anyhow!` early error returns. -/
def trace_state_diff (slotOf : Nat → Nat) (state_diff : Option StateDiff)
    (pools : List (Nat × Pool)) (target_address : Nat) :
    Except String (List BalanceChange) :=
  match state_diff with
  | none => Except.error "state diff does not exist"
  | some sd =>
    let touched := touched_pools sd pools target_address
    if touched.isEmpty then Except.ok []
    else
      match List.lookup target_address sd with
      | none => Except.error "no target storage"
      | some account =>
        Except.ok (touched.filterMap (fun pool =>
          match List.lookup (slotOf pool.address) account.storage with
          | some (Diff.changed f t) =>
            if t > f then some ⟨pool.address, f, t⟩ else none
          | _ => none))

/-! ### The correlator loop of `watching_pool`

The third spawned task (watching.rs lines 267-331) holds a mutable
`new_block : NewBlock` (initially `NewBlock::default()`) and consumes
events.  Each invocation of the analyzer is recorded as an `Invocation`;
the per-transaction random jitter drawn inside
`calculate_next_block_base_fee` is supplied as a `seed` paired with the
event.  A panic of the U256 arithmetic kills the task; this is modelled
by the outer `Option` (`none` = the loop died). -/

/-- One call of `trace_state_diff` made by the correlator (watching.rs
lines 311-318): the transaction, the stored block's number, and the
target token address. -/
structure Invocation where
  txHash : Nat
  blockNumber : Nat
  target : Nat
deriving DecidableEq

/-- One iteration of the correlator's event loop (watching.rs
lines 281-326) on an already-received event.  Returns the updated block
state and the analyzer invocation made, if any; `none` models a panic
inside `calculate_next_block_base_fee`. -/
def correlator_step (target_address seed : Nat) (st : NewBlock) :
    Event → Option (NewBlock × Option Invocation)
  | .newBlock b => some (b, none)
  | .transaction tx =>
    if st.number ≠ 0 then
      match calculate_next_block_base_fee
          st.gas_used st.gas_limit st.base_fee_per_gas seed with
      | none => none
      | some next_base_fee =>
        if tx.max_fee_per_gas.getD 0 > next_base_fee then
          some (st, some ⟨tx.hash, st.number, target_address⟩)
        else
          some (st, none)
    else
      some (st, none)

/-- The correlator's event loop run over a finite list of received
events, each paired with the jitter seed its fee computation would draw.
Returns the final block state and all analyzer invocations, in order;
`none` models the task panicking part-way. -/
def correlator_run (target_address : Nat) (st : NewBlock) :
    List (Event × Nat) → Option (NewBlock × List Invocation)
  | [] => some (st, [])
  | p :: rest =>
    match correlator_step target_address p.2 st p.1 with
    | none => none
    | some (st1, inv?) =>
      match correlator_run target_address st1 rest with
      | none => none
      | some (st2, invs) => some (st2, inv?.toList ++ invs)

/-! ### Theorems -/

/-- Inversion of the fee-increase branch: when `gas_used` exceeds the
target, a successful `new_base_fee` is exactly
`base_fee + base_fee * (gas_used - target) / target / 8`. -/
lemma new_base_fee_increase_eq (g gl b f : Nat) (h : target_gas_used gl < g)
    (hf : new_base_fee g gl b = some f) :
    b * (g - target_gas_used gl) < U256_LIMIT ∧
    f = b + b * (g - target_gas_used gl) / target_gas_used gl / 8 := by
  unfold new_base_fee at hf
  rw [if_pos h] at hf
  rw [show u256_sub g (target_gas_used gl) = some (g - target_gas_used gl) from
    by unfold u256_sub; rw [if_pos (Nat.le_of_lt h)]] at hf
  simp only [bind, Option.bind_eq_some, u256_mul, u256_div, u256_add] at hf
  obtain ⟨m, hm, q1, hq1, q2, hq2, q3, hq3, hadd⟩ := hf
  have htgu : target_gas_used gl ≠ 0 := by
    unfold target_gas_used; split <;> omega
  cases hm
  rw [if_neg htgu] at hq2
  rw [if_neg (by omega : (8 : Nat) ≠ 0)] at hq3
  cases hq2
  cases hq3
  split at hq1
  · cases hq1
    split at hadd
    · cases hadd
      exact ⟨by assumption, rfl⟩
    · cases hadd
  · cases hq1

/-- Claim C3: evaluation of `calculate_next_block_base_fee` at
`gas_used = 0`, `gas_limit = 30000000`, `base_fee_per_gas = 100`
(jitter seed 0).  The target is `15000000 > 0`, so the source takes the
fee-decrease branch and computes `gas_used - target_gas_used` on `U256`,
which underflows: the call panics (`none`) instead of returning the
decreased fee claimed by the spec (and by the source's own comment,
which says the decrease is `base_fee * (target - gas_used) / target / 8`). -/
theorem C3_decrease_branch_panics :
    calculate_next_block_base_fee 0 30000000 100 0 = none := rfl

/-- Claim C7: `new_base_fee` (the predicted fee before jitter) is
monotone in `gas_used` above the target: for
`target < g ≤ g2`, whenever both computations succeed, the fee for `g2`
is at least the fee for `g`. -/
theorem C7_monotone_above_target (g g2 gl b f f2 : Nat)
    (hg : target_gas_used gl < g) (hgg : g ≤ g2)
    (hf : new_base_fee g gl b = some f)
    (hf2 : new_base_fee g2 gl b = some f2) :
    f ≤ f2 := by
  obtain ⟨-, hfe⟩ := new_base_fee_increase_eq g gl b f hg hf
  obtain ⟨-, hfe2⟩ :=
    new_base_fee_increase_eq g2 gl b f2 (Nat.lt_of_lt_of_le hg hgg) hf2
  rw [hfe, hfe2]
  apply Nat.add_le_add_left
  apply Nat.div_le_div_right
  apply Nat.div_le_div_right
  exact Nat.mul_le_mul_left b (Nat.sub_le_sub_right hgg _)

/-- Witness for C7 at `gl = 2`, `b = 8`, `g = 2`, `g2 = 3`:
the predicted pre-jitter fees are `9` and `10`. -/
theorem C7_witness :
    target_gas_used 2 < 2 ∧ 2 ≤ 3 ∧
    new_base_fee 2 2 8 = some 9 ∧ new_base_fee 3 2 8 = some 10 ∧ 9 ≤ 10 :=
  ⟨by decide, by decide, rfl, rfl,
    C7_monotone_above_target 2 3 2 8 9 10 (by decide) (by decide) rfl rfl⟩

/-- Claim C8: the divisor used by `calculate_next_block_base_fee` is
`target_gas_used gas_limit`, which is always positive — in particular it
is clamped to `1` whenever `gas_limit / 2 = 0` — so the `U256` division
by the target never hits the division-by-zero panic. -/
theorem C8_no_division_by_zero (gas_limit : Nat) :
    0 < target_gas_used gas_limit ∧
    (gas_limit / 2 = 0 → target_gas_used gas_limit = 1) ∧
    ∀ m, u256_div m (target_gas_used gas_limit) =
      some (m / target_gas_used gas_limit) := by
  have hpos : 0 < target_gas_used gas_limit := by
    unfold target_gas_used; split <;> omega
  refine ⟨hpos, fun h => ?_, fun m => ?_⟩
  · unfold target_gas_used
    rw [if_pos h]
  · unfold u256_div
    rw [if_neg (by omega)]

/-- Witness for C8 at `gas_limit = 0`. -/
theorem C8_witness :
    0 < target_gas_used 0 ∧ target_gas_used 0 = 1 ∧
    u256_div 5 (target_gas_used 0) = some (5 / target_gas_used 0) :=
  ⟨(C8_no_division_by_zero 0).1, (C8_no_division_by_zero 0).2.1 rfl,
    (C8_no_division_by_zero 0).2.2 5⟩

/-- While its stored block number is the zero sentinel, the correlator
makes no analyzer invocation across any run of transaction events and
zero-numbered block events, and the stored number stays zero. -/
lemma correlator_run_sentinel (target_address : Nat) (evs : List (Event × Nat))
    (st : NewBlock) (hst : st.number = 0)
    (h : ∀ p ∈ evs, (Prod.fst p).isTxOrZeroBlock = true) :
    ∃ st2, correlator_run target_address st evs = some (st2, []) ∧
      st2.number = 0 := by
  induction evs generalizing st with
  | nil => exact ⟨st, rfl, hst⟩
  | cons p rest ih =>
    have hp : (Prod.fst p).isTxOrZeroBlock = true := h p (List.mem_cons_self p rest)
    have hrest : ∀ q ∈ rest, (Prod.fst q).isTxOrZeroBlock = true :=
      fun q hq => h q (List.mem_cons_of_mem p hq)
    cases he : p.1 with
    | transaction tx =>
      have hstep : correlator_step target_address p.2 st p.1 = some (st, none) := by
        rw [he]
        simp only [correlator_step]
        rw [if_neg (by simp [hst])]
      obtain ⟨st2, hrun, h2⟩ := ih st hst hrest
      exact ⟨st2, by simp [correlator_run, hstep, hrun, Option.toList], h2⟩
    | newBlock b =>
      have hb : b.number = 0 := by
        rw [he] at hp
        simpa [Event.isTxOrZeroBlock] using hp
      have hstep : correlator_step target_address p.2 st p.1 = some (b, none) := by
        rw [he]; rfl
      obtain ⟨st2, hrun, h2⟩ := ih b hb hrest
      exact ⟨st2, by simp [correlator_run, hstep, hrun, Option.toList], h2⟩

/-- While its stored block number is the zero sentinel, the correlator
leaves its state untouched and makes no invocation across any run of
transaction-only events. -/
lemma correlator_run_all_tx (target_address : Nat) (evs : List (Event × Nat))
    (st : NewBlock) (hst : st.number = 0)
    (h : ∀ p ∈ evs, (Prod.fst p).isTransactionEvent = true) :
    correlator_run target_address st evs = some (st, []) := by
  induction evs with
  | nil => rfl
  | cons p rest ih =>
    have hp : (Prod.fst p).isTransactionEvent = true := h p (List.mem_cons_self p rest)
    have hrest : ∀ q ∈ rest, (Prod.fst q).isTransactionEvent = true :=
      fun q hq => h q (List.mem_cons_of_mem p hq)
    cases he : p.1 with
    | newBlock b => rw [he] at hp; simp [Event.isTransactionEvent] at hp
    | transaction tx =>
      have hstep : correlator_step target_address p.2 st p.1 = some (st, none) := by
        rw [he]
        simp only [correlator_step]
        rw [if_neg (by simp [hst])]
      simp [correlator_run, hstep, ih hrest, Option.toList]

/-- Claim C4: with a non-sentinel stored block and a successful fee
prediction, the correlator's transaction branch invokes the analyzer —
passing the transaction, the stored block's number and the target token
address — exactly when the transaction's `max_fee_per_gas` (zero when
absent) strictly exceeds the predicted next base fee. -/
theorem C4_invoke_iff (target_address seed : Nat) (st : NewBlock)
    (tx : Transaction) (next_base_fee : Nat) (hn : st.number ≠ 0)
    (hfee : calculate_next_block_base_fee st.gas_used st.gas_limit
      st.base_fee_per_gas seed = some next_base_fee) :
    correlator_step target_address seed st (Event.transaction tx) =
      some (st, if tx.max_fee_per_gas.getD 0 > next_base_fee
        then some ⟨tx.hash, st.number, target_address⟩ else none) := by
  simp only [correlator_step]
  rw [if_pos hn, hfee]
  by_cases hc : tx.max_fee_per_gas.getD 0 > next_base_fee <;> simp [hc]

/-- Witness for C4: block `{number 1, gas_used 2, gas_limit 2, fee 0}`,
seed `0`, a transaction with `max_fee_per_gas = 1 > 0`: the analyzer is
invoked with the block number `1` and the target address `7`. -/
theorem C4_witness :
    (⟨1, 2, 2, 0, 0⟩ : NewBlock).number ≠ 0 ∧
    calculate_next_block_base_fee 2 2 0 0 = some 0 ∧
    correlator_step 7 0 ⟨1, 2, 2, 0, 0⟩ (Event.transaction ⟨9, some 1⟩) =
      some (⟨1, 2, 2, 0, 0⟩,
        if (some 1 : Option Nat).getD 0 > 0 then some ⟨9, 1, 7⟩ else none) :=
  ⟨by decide, rfl, C4_invoke_iff 7 0 ⟨1, 2, 2, 0, 0⟩ ⟨9, some 1⟩ 0 (by decide) rfl⟩

/-- Claim C5: from the initial sentinel state, a run consisting solely of
transaction events produces no analyzer invocation at all (and leaves the
sentinel state in place). -/
theorem C5_no_invocation_before_first_block (target_address : Nat)
    (evs : List (Event × Nat))
    (h : ∀ p ∈ evs, (Prod.fst p).isTransactionEvent = true) :
    correlator_run target_address NewBlock.default evs =
      some (NewBlock.default, []) :=
  correlator_run_all_tx target_address evs NewBlock.default rfl h

/-- Witness for C5: two transaction events before any block are ignored. -/
theorem C5_witness :
    (∀ p ∈ [((Event.transaction ⟨9, some 1000⟩ : Event), 0),
            (Event.transaction ⟨8, none⟩, 5)],
      (Prod.fst p).isTransactionEvent = true) ∧
    correlator_run 7 NewBlock.default
      [(Event.transaction ⟨9, some 1000⟩, 0), (Event.transaction ⟨8, none⟩, 5)] =
      some (NewBlock.default, []) :=
  ⟨by decide, C5_no_invocation_before_first_block 7
    [(Event.transaction ⟨9, some 1000⟩, 0), (Event.transaction ⟨8, none⟩, 5)]
    (by decide)⟩

/-- Claim C10: the correlator's only record of "a block was observed" is
the stored block number.  First conjunct: across any run of transaction
events and `NewBlock` events whose numbers are all `0`, no analyzer
invocation (and no fee prediction — no panic is even possible) occurs,
and the stored number remains `0`, exactly as if no block had arrived.
Second conjunct: a `NewBlock` with non-zero number does enable
processing — a subsequent affordable transaction is forwarded. -/
theorem C10_zero_number_is_sentinel :
    (∀ target_address evs,
      (∀ p ∈ evs, (Prod.fst p).isTxOrZeroBlock = true) →
      ∃ st2, correlator_run target_address NewBlock.default evs =
        some (st2, []) ∧ st2.number = 0) ∧
    (∀ target_address, correlator_run target_address NewBlock.default
      [(Event.newBlock ⟨1, 2, 2, 0, 0⟩, 0), (Event.transaction ⟨9, some 1⟩, 0)] =
      some (⟨1, 2, 2, 0, 0⟩, [⟨9, 1, target_address⟩])) :=
  ⟨fun target_address evs h =>
    correlator_run_sentinel target_address evs NewBlock.default rfl h,
   fun _ => rfl⟩

/-- Witness for C10: a zero-numbered block followed by a high-fee
transaction still yields no invocation. -/
theorem C10_witness :
    (∀ p ∈ [((Event.newBlock ⟨0, 5, 6, 7, 8⟩ : Event), 0),
            (Event.transaction ⟨9, some 1000⟩, 0)],
      (Prod.fst p).isTxOrZeroBlock = true) ∧
    ∃ st2, correlator_run 7 NewBlock.default
      [(Event.newBlock ⟨0, 5, 6, 7, 8⟩, 0), (Event.transaction ⟨9, some 1000⟩, 0)] =
      some (st2, []) ∧ st2.number = 0 :=
  ⟨by decide, C10_zero_number_is_sentinel.1 7
    [(Event.newBlock ⟨0, 5, 6, 7, 8⟩, 0), (Event.transaction ⟨9, some 1000⟩, 0)]
    (by decide)⟩

/-- Claim C1 (counterexample): when the simulation client produces no
state diff, `trace_state_diff` does not return a successful no-op — it
returns the error `"state diff does not exist"` (watching.rs line 76). -/
theorem C1_counterexample :
    trace_state_diff (fun a => a) none [] 0 =
      Except.error "state diff does not exist" ∧
    ∀ r : List BalanceChange,
      trace_state_diff (fun a => a) none [] 0 ≠ Except.ok r := by
  refine ⟨rfl, fun r h => ?_⟩
  rw [show trace_state_diff (fun a => a) none [] 0 =
    Except.error "state diff does not exist" from rfl] at h
  exact Except.noConfusion h

/-- Claim C1 (amended): for every transaction whose simulated execution
produces no state diff, `trace_state_diff` returns the error
`"state diff does not exist"` — which the correlator then logs and
discards — rather than a successful no-op result. -/
theorem C1_no_diff_is_error (slotOf : Nat → Nat) (pools : List (Nat × Pool))
    (target_address : Nat) :
    trace_state_diff slotOf none pools target_address =
      Except.error "state diff does not exist" := rfl

/-- Claim C2 (counterexample): a diff touching only pool address `10`
(a pool whose `token_a` is the target `0`), with no diff entry for the
target's own account, makes `trace_state_diff` return the error
`"no target storage"` (watching.rs line 113) — not empty/success. -/
theorem C2_counterexample :
    trace_state_diff (fun a => a) (some [(10, ⟨[]⟩)])
      [(10, Pool.uniswapV2 ⟨10, 0, 99⟩)] 0 =
      Except.error "no target storage" ∧
    Pool.containsToken (Pool.uniswapV2 ⟨10, 0, 99⟩) 0 = true :=
  ⟨rfl, rfl⟩

/-- Claim C2 (amended): when the simulated diff has no entry for the
target token's account, `trace_state_diff` returns empty success if no
touched pool contains the target token, and the error
`"no target storage"` as soon as at least one touched pool does. -/
theorem C2_no_target_entry (slotOf : Nat → Nat)
    (sd : List (Nat × AccountDiff)) (pools : List (Nat × Pool))
    (target_address : Nat)
    (hnone : List.lookup target_address sd = none) :
    trace_state_diff slotOf (some sd) pools target_address =
      if (touched_pools sd pools target_address).isEmpty then Except.ok []
      else Except.error "no target storage" := by
  simp only [trace_state_diff, hnone]

/-- Witness for C2 on the concrete no-target-entry diff of the
counterexample. -/
theorem C2_witness :
    List.lookup 0 [(10, (⟨[]⟩ : AccountDiff))] = none ∧
    trace_state_diff (fun a => a + 1) (some [(10, ⟨[]⟩)])
      [(10, Pool.uniswapV2 ⟨10, 0, 99⟩)] 0 =
      (if (touched_pools [(10, ⟨[]⟩)]
            [(10, Pool.uniswapV2 ⟨10, 0, 99⟩)] 0).isEmpty
       then Except.ok [] else Except.error "no target storage") :=
  ⟨rfl, C2_no_target_entry (fun a => a + 1) [(10, ⟨[]⟩)]
    [(10, Pool.uniswapV2 ⟨10, 0, 99⟩)] 0 rfl⟩

/-- Claim C6: every balance change reported by a successful run of
`trace_state_diff` comes from a touched pool whose token pair contains
the target token (order-independent), and corresponds to an entry of the
target token's own account diff, at the slot derived from the pool's
address, that changed to a strictly larger value.  Decreases, unchanged
slots and non-matching pools are never reported. -/
theorem C6_match_soundness (slotOf : Nat → Nat)
    (sd : List (Nat × AccountDiff)) (pools : List (Nat × Pool))
    (target_address : Nat) (res : List BalanceChange)
    (hres : trace_state_diff slotOf (some sd) pools target_address =
      Except.ok res) :
    ∀ bc ∈ res, ∃ p ∈ touched_pools sd pools target_address,
      p.containsToken target_address = true ∧ bc.pool = p.address ∧
      ∃ account, List.lookup target_address sd = some account ∧
        List.lookup (slotOf p.address) account.storage =
          some (Diff.changed bc.before bc.after) ∧
        bc.before < bc.after := by
  intro bc hbc
  simp only [trace_state_diff] at hres
  by_cases hemp : (touched_pools sd pools target_address).isEmpty
  · rw [if_pos hemp] at hres
    cases hres
    cases hbc
  · rw [if_neg hemp] at hres
    cases hlk : List.lookup target_address sd with
    | none => rw [hlk] at hres; cases hres
    | some account =>
      rw [hlk] at hres
      cases hres
      rw [List.mem_filterMap] at hbc
      obtain ⟨p, hp, hfp⟩ := hbc
      have hcontains : p.containsToken target_address = true :=
        (List.mem_filter.mp hp).2
      refine ⟨p, hp, hcontains, ?_⟩
      cases hsl : List.lookup (slotOf p.address) account.storage with
      | none => rw [hsl] at hfp; cases hfp
      | some d =>
        rw [hsl] at hfp
        cases d with
        | changed f t =>
          simp only at hfp
          by_cases hft : t > f
          · rw [if_pos hft] at hfp
            cases hfp
            exact ⟨rfl, account, rfl, hsl, hft⟩
          · rw [if_neg hft] at hfp
            cases hfp
        | same => cases hfp
        | born v => cases hfp
        | died v => cases hfp

/-- Witness for C6: a diff in which pool `10` (tokens `7` and `99`,
target `7`) has its balance slot `1010` in the target's account change
from `1000` to `1500` — the single reported match. -/
theorem C6_witness :
    ∃ p ∈ touched_pools [(10, ⟨[]⟩), (7, ⟨[(1010, Diff.changed 1000 1500)]⟩)]
      [(10, Pool.uniswapV2 ⟨10, 7, 99⟩)] 7,
    p.containsToken 7 = true ∧
    (⟨10, 1000, 1500⟩ : BalanceChange).pool = p.address ∧
    ∃ account, List.lookup 7
        [(10, (⟨[]⟩ : AccountDiff)), (7, ⟨[(1010, Diff.changed 1000 1500)]⟩)] =
        some account ∧
      List.lookup ((fun a => a + 1000) p.address) account.storage =
        some (Diff.changed (⟨10, 1000, 1500⟩ : BalanceChange).before
          (⟨10, 1000, 1500⟩ : BalanceChange).after) ∧
      (⟨10, 1000, 1500⟩ : BalanceChange).before <
        (⟨10, 1000, 1500⟩ : BalanceChange).after :=
  C6_match_soundness (fun a => a + 1000)
    [(10, ⟨[]⟩), (7, ⟨[(1010, Diff.changed 1000 1500)]⟩)]
    [(10, Pool.uniswapV2 ⟨10, 7, 99⟩)] 7 [⟨10, 1000, 1500⟩] rfl
    ⟨10, 1000, 1500⟩ (List.mem_singleton.mpr rfl)

end WatchingPools
